import Mathlib

/-!
Verification development for the gocode-router gateway.

The definitions below are a shallow embedding of the Go sources:
Go maps become association lists with unique keys (`mapGet`/`mapSet`),
Go `error` values become a record carrying the message together with the
sentinel flags that `errors.Is` would observe, fallible functions return
`Except` or pair the mutated state with an optional error, and `float64`
values are carried opaquely as rationals (no claim computes with them).
-/

namespace GocodeRouter

/-- Drop leading whitespace characters from a character list. -/
def dropLeadingSpace : List Char → List Char
| [] => []
| c :: rest => if c.isWhitespace then dropLeadingSpace rest else c :: rest

/-- `strings.TrimSpace` (the ASCII whitespace class suffices for every
value the claims exercise): drop whitespace from both ends. -/
def goTrimSpace (s : String) : String :=
  String.mk ((dropLeadingSpace (dropLeadingSpace s.data).reverse).reverse)

/-- `strings.ToLower` restricted to ASCII, as used on role names. -/
def goToLower (s : String) : String :=
  String.mk (s.data.map (fun c =>
    if 'A' ≤ c ∧ c ≤ 'Z' then Char.ofNat (c.toNat + 32) else c))

/-- Read from a Go map modelled as an association list with unique keys. -/
def mapGet {α : Type} (m : List (String × α)) (k : String) : Option α :=
  (m.find? (fun p => p.1 == k)).map (fun p => p.2)

/-- Write to a Go map: replace the binding when the key is present,
append it otherwise. -/
def mapSet {α : Type} (m : List (String × α)) (k : String) (v : α) :
    List (String × α) :=
  if (m.find? (fun p => p.1 == k)).isSome then
    m.map (fun p => if p.1 == k then (k, v) else p)
  else
    m ++ [(k, v)]

/-- Heterogeneous option value (`any` in the Go options bag). -/
inductive GoVal : Type
| vInt (n : Int)
| vFloat (q : Rat)
| vStr (s : String)
| vStrList (l : List String)
| vMap (m : List (String × GoVal))
| vRaw (s : String)

/-- The options bag: `map[string]any`. -/
def OptMap : Type := List (String × GoVal)

/-- Lookup in an options bag. -/
def optGet (o : OptMap) (k : String) : Option GoVal := mapGet o k

/-- `models.Message`. -/
structure Message where
  Role : String
  Content : String
  Name : String := ""
deriving DecidableEq

/-- `models.UnifiedChatRequest`. -/
structure UnifiedChatRequest where
  Model : String
  Messages : List Message
  Stream : Bool
  Options : OptMap

/-- `models.Usage`. -/
structure Usage where
  PromptTokens : Int
  CompletionTokens : Int
  TotalTokens : Int
deriving DecidableEq

/-- `models.UnifiedChatResponse`. -/
structure UnifiedChatResponse where
  Message : Message
  Usage : Usage
  FinishReason : String
  ID : String
deriving DecidableEq

/-- `models.UnifiedCompletionRequest`. -/
structure UnifiedCompletionRequest where
  Model : String
  Prompt : String
  Stream : Bool
  MaxTokens : Int
  Temperature : Rat
  Options : OptMap

/-- `models.UnifiedCompletionResponse`. -/
structure UnifiedCompletionResponse where
  Text : String
  Usage : Usage
  FinishReason : String
  ID : String
deriving DecidableEq

/-- `models.Model`: the model descriptor. -/
structure ModelDesc where
  ID : String
  Provider : String
  APIStyle : String
deriving DecidableEq

/-- A Go `error` value, carrying the message plus the sentinel identities
that `errors.Is` would report along the `%w` wrap chain. -/
structure GoErr where
  msg : String
  isUnknownModel : Bool := false
  isUnsupportedOperation : Bool := false
deriving DecidableEq

/-- A registered provider as the registry sees it: its `Name()` and the
result of `ListModels(ctx)`. -/
structure Provider where
  name : String
  listModels : Except String (List ModelDesc)

/-- `provider.modelEntry`. -/
structure modelEntry where
  model : ModelDesc
  provider : Provider

/-- `provider.Registry`: the two maps guarded by the RW-lock. -/
structure Registry where
  models : List (String × modelEntry)
  byName : List (String × Provider)

/-- `provider.NewRegistry`. -/
def NewRegistry : Registry := { models := [], byName := [] }

/-- The model-insertion loop of `Registry.RegisterProvider`: on a duplicate
id it returns the error with the registry as mutated so far. -/
def insertModels (pv : Provider) :
    Registry → List ModelDesc → Registry × Option String
| r, [] => (r, none)
| r, m :: rest =>
  if (mapGet r.models m.ID).isSome then
    (r, some ("model already registered: " ++ m.ID))
  else
    insertModels pv { r with models := mapSet r.models m.ID ⟨m, pv⟩ } rest

/-- The alias-wiring loop of `Registry.RegisterProvider`: on a conflict or
an unknown target it returns the error with the registry as mutated so far. -/
def insertAliases : Registry → List (String × String) → Registry × Option String
| r, [] => (r, none)
| r, (al, target) :: rest =>
  if (mapGet r.models al).isSome then
    (r, some ("alias " ++ al ++ " conflicts with existing model"))
  else
    match mapGet r.models target with
    | none => (r, some ("alias " ++ al ++ " references unknown model " ++ target))
    | some te => insertAliases { r with models := mapSet r.models al te } rest

/-- `Registry.RegisterProvider`. The Go receiver is a pointer, so the
function returns the (possibly mutated) registry together with the error. -/
def RegisterProvider (r : Registry) (p : Option Provider)
    (aliases : List (String × String)) : Registry × Option String :=
  match p with
  | none => (r, some "provider must not be nil")
  | some pv =>
    match pv.listModels with
    | .error e => (r, some ("list models for provider " ++ pv.name ++ ": " ++ e))
    | .ok modelsList =>
      if (mapGet r.byName pv.name).isSome then
        (r, some ("provider " ++ pv.name ++ " already registered"))
      else
        let r1 : Registry := { r with byName := mapSet r.byName pv.name pv }
        match insertModels pv r1 modelsList with
        | (r2, some e) => (r2, some e)
        | (r2, none) => insertAliases r2 aliases

/-- `Registry.LookupModel`. -/
def LookupModel (r : Registry) (modelID : String) :
    Except GoErr (ModelDesc × Provider) :=
  match mapGet r.models modelID with
  | none => .error { msg := "unknown model: " ++ modelID, isUnknownModel := true }
  | some entry => .ok (entry.model, entry.provider)

/-- `router.cloneOptions`: `nil` for an empty bag, otherwise a fresh map
with the same entries (extensionally the identity in value semantics). -/
def cloneOptions (options : OptMap) : OptMap :=
  if options.length = 0 then [] else options

/-- `Router.Chat`. The provider's `Chat` method is abstracted as a
behaviour function of the resolved provider. -/
def RouterChat (registry : Registry)
    (chatImpl : Provider → UnifiedChatRequest → Except GoErr UnifiedChatResponse)
    (req : UnifiedChatRequest) :
    Except GoErr (UnifiedChatResponse × ModelDesc) :=
  match LookupModel registry req.Model with
  | .error e => .error e
  | .ok (modelInfo, providerImpl) =>
    let sanitisedReq : UnifiedChatRequest :=
      { req with Model := modelInfo.ID, Options := cloneOptions req.Options }
    match chatImpl providerImpl sanitisedReq with
    | .error e =>
      .error { e with msg := "provider " ++ providerImpl.name ++ " chat request: " ++ e.msg }
    | .ok resp => .ok (resp, modelInfo)

/-- `Router.Completion`. -/
def RouterCompletion (registry : Registry)
    (complImpl : Provider → UnifiedCompletionRequest → Except GoErr UnifiedCompletionResponse)
    (req : UnifiedCompletionRequest) :
    Except GoErr (UnifiedCompletionResponse × ModelDesc) :=
  match LookupModel registry req.Model with
  | .error e => .error e
  | .ok (modelInfo, providerImpl) =>
    let sanitisedReq : UnifiedCompletionRequest :=
      { req with Model := modelInfo.ID, Options := cloneOptions req.Options }
    match complImpl providerImpl sanitisedReq with
    | .error e =>
      .error { e with msg := "provider " ++ providerImpl.name ++ " completion request: " ++ e.msg }
    | .ok resp => .ok (resp, modelInfo)

/-- `claude.extractInt` on the values the translators can store: Go's
`int`/`int64` cases read the integer, the `float64` case truncates toward
zero; other dynamic types yield `false`. -/
def extractInt (options : OptMap) (key : String) : Option Int :=
  match optGet options key with
  | some (.vInt n) => some n
  | some (.vFloat q) => some (if 0 ≤ q then q.floor else q.ceil)
  | _ => none

/-- `claude.extractFloat`: only floating-point dynamic values match. -/
def extractFloat (options : OptMap) (key : String) : Option Rat :=
  match optGet options key with
  | some (.vFloat q) => some q
  | _ => none

/-- `claude.extractStringSlice` on the values the translators can store. -/
def extractStringSlice (options : OptMap) (key : String) : Option (List String) :=
  match optGet options key with
  | some (.vStrList l) => some l
  | _ => none

/-- `claude.extractMap`. -/
def extractMap (options : OptMap) (key : String) : Option (List (String × GoVal)) :=
  match optGet options key with
  | some (.vMap m) => some m
  | _ => none

/-- `claude.contentBlock`. -/
structure CBlock where
  type : String
  text : String
deriving DecidableEq

/-- `claude.message`: one shaped outbound message. -/
structure CMessage where
  Role : String
  Content : List CBlock
deriving DecidableEq

/-- `claude.messagePayload`: the outbound `/v1/messages` body. -/
structure MessagePayload where
  Model : String
  Messages : List CMessage
  System : String := ""
  MaxTokens : Int
  Temperature : Option Rat := none
  TopP : Option Rat := none
  StopSequences : List String := []
  Metadata : Option (List (String × GoVal)) := none
  Stream : Bool

/-- The message-shaping loop of `buildMessagePayload`: walks the canonical
messages in order, collecting non-blank system contents and emitting
user/assistant messages as single text blocks; the first offending message
aborts with its error. -/
def shapeMessages : List Message → Except String (List CMessage × List String)
| [] => .ok ([], [])
| msg :: rest =>
  let role := goToLower (goTrimSpace msg.Role)
  if role = "system" then
    match shapeMessages rest with
    | .error e => .error e
    | .ok (msgs, sys) =>
      if goTrimSpace msg.Content ≠ "" then .ok (msgs, msg.Content :: sys)
      else .ok (msgs, sys)
  else if role = "user" ∨ role = "assistant" then
    let text := goTrimSpace msg.Content
    if text = "" then .error "claude messages must not be empty"
    else
      match shapeMessages rest with
      | .error e => .error e
      | .ok (msgs, sys) => .ok ({ Role := role, Content := [⟨"text", text⟩] } :: msgs, sys)
  else
    .error ("claude provider does not support role " ++ msg.Role)

/-- `claude.buildMessagePayload`. -/
def buildMessagePayload (req : UnifiedChatRequest) : Except String MessagePayload :=
  match shapeMessages req.Messages with
  | .error e => .error e
  | .ok (messages, systemParts) =>
    match messages with
    | [] => .error "claude request requires at least one user message"
    | first :: _ =>
      if first.Role ≠ "user" then .error "claude conversation must start with a user message"
      else
        match extractInt req.Options "max_tokens" with
        | none => .error "claude requests require a positive max_tokens value"
        | some maxTokens =>
          if maxTokens ≤ 0 then .error "claude requests require a positive max_tokens value"
          else
            .ok { Model := req.Model
                  Messages := messages
                  MaxTokens := maxTokens
                  Stream := req.Stream
                  System := if systemParts ≠ [] then String.intercalate "\n\n" systemParts else ""
                  Temperature := extractFloat req.Options "temperature"
                  TopP := extractFloat req.Options "top_p"
                  StopSequences := (extractStringSlice req.Options "stop").getD []
                  Metadata := extractMap req.Options "metadata" }

/-- `claude.usageBlock`. -/
structure UsageBlock where
  InputTokens : Int
  OutputTokens : Int
deriving DecidableEq

/-- `claude.messageResponse`: the decoded upstream response body. -/
structure MessageResponse where
  ID : String
  Role : String
  Content : List CBlock
  Usage : UsageBlock
  StopReason : String
deriving DecidableEq

/-- The block-concatenation loop of `messageResponse.toUnified`: appends
each text block's text, failing at the first non-text block. -/
def concatText : List CBlock → Except String String
| [] => .ok ""
| b :: rest =>
  if b.type ≠ "text" then
    .error ("claude returned unsupported content block type " ++ b.type)
  else
    match concatText rest with
    | .error e => .error e
    | .ok s => .ok (b.text ++ s)

/-- `messageResponse.toUnified`. -/
def toUnified (r : MessageResponse) : Except String UnifiedChatResponse :=
  match r.Content with
  | [] => .error "claude response missing content blocks"
  | _ =>
    match concatText r.Content with
    | .error e => .error e
    | .ok text =>
      .ok { ID := r.ID
            Message := { Role := if r.Role = "" then "assistant" else r.Role
                         Content := text }
            FinishReason := r.StopReason
            Usage := { PromptTokens := r.Usage.InputTokens
                       CompletionTokens := r.Usage.OutputTokens
                       TotalTokens := r.Usage.InputTokens + r.Usage.OutputTokens } }

/-- `claude.Provider.Chat`: the HTTP round-trip is abstracted as the
`upstream` function from the marshalled payload to the decoded response. -/
def ClaudeChat (upstream : MessagePayload → Except GoErr MessageResponse)
    (req : UnifiedChatRequest) : Except GoErr UnifiedChatResponse :=
  if req.Stream then
    .error { msg := "streaming is not yet supported", isUnsupportedOperation := true }
  else
    match buildMessagePayload req with
    | .error e => .error { msg := e }
    | .ok payload =>
      match upstream payload with
      | .error e => .error e
      | .ok providerResp =>
        match toUnified providerResp with
        | .error e => .error { msg := e }
        | .ok u => .ok u

/-- The JSON shapes the `stop` field of an OpenAI chat request can take,
as `json.Unmarshal` discriminates them in `parseStop`. -/
inductive StopJson : Type
| absent
| str (s : String)
| arr (l : List String)
| other
deriving DecidableEq

/-- The array loop of `parseStop`: trims every entry, failing on a blank one. -/
def trimStops : List String → Except String (List String)
| [] => .ok []
| s :: rest =>
  let t := goTrimSpace s
  if t = "" then .error "unsupported stop value"
  else
    match trimStops rest with
    | .error e => .error e
    | .ok out => .ok (t :: out)

/-- `translator.parseStop`: a single string is kept verbatim (only checked
non-blank); an array has each entry trimmed. -/
def parseStop : StopJson → Except String (List String)
| .absent => .ok []
| .str s => if goTrimSpace s = "" then .error "unsupported stop value" else .ok [s]
| .arr l => trimStops l
| .other => .error "unsupported stop value"

/-- The JSON shapes the Claude `system` field can take, as the cascade of
`json.Unmarshal` calls in `parseClaudeSystem` discriminates them. -/
inductive SystemJson : Type
| absent
| str (s : String)
| strList (l : List String)
| block (ty : String) (tx : String)
| blockList (l : List CBlock)
| other
deriving DecidableEq

/-- `translator.extractSystemBlock`. -/
def extractSystemBlock (b : CBlock) : Except String String :=
  if b.type ≠ "" ∧ b.type ≠ "text" then
    .error ("invalid system prompt: unsupported block type " ++ b.type)
  else .ok (goTrimSpace b.text)

/-- The block-list loop of `parseClaudeSystem`: extracts each block,
skipping blank texts, failing at the first unsupported block type. -/
def collectSystemBlocks : List CBlock → Except String (List String)
| [] => .ok []
| b :: rest =>
  match extractSystemBlock b with
  | .error e => .error e
  | .ok t =>
    match collectSystemBlocks rest with
    | .error e => .error e
    | .ok out => .ok (if t = "" then out else t :: out)

/-- `translator.parseClaudeSystem`. A bare `{type:"", ...}` object fails
every branch of the Go cascade (the single-block branch requires a
non-empty `type`), so it maps to the invalid-system error. -/
def parseClaudeSystem : SystemJson → Except String (List String)
| .absent => .ok []
| .str s =>
  let t := goTrimSpace s
  if t = "" then .ok [] else .ok [t]
| .strList l =>
  .ok (l.filterMap (fun s =>
    let t := goTrimSpace s
    if t = "" then none else some t))
| .block ty tx =>
  if ty = "" then .error "invalid system prompt"
  else
    match extractSystemBlock ⟨ty, tx⟩ with
    | .error e => .error e
    | .ok t => if t = "" then .ok [] else .ok [t]
| .blockList l => collectSystemBlocks l
| .other => .error "invalid system prompt"

/-- `translator.ClaudeMessage` after `UnmarshalJSON` has normalised it. -/
structure ClaudeMessage where
  Role : String
  Content : String
  Name : String := ""
deriving DecidableEq

/-- `translator.ClaudeMessageRequest` after `UnmarshalJSON`. -/
structure ClaudeMessageRequest where
  Model : String
  MaxTokens : Option Int := none
  Messages : List ClaudeMessage
  System : List String := []
  Stream : Bool := false
  Temperature : Option Rat := none
  TopP : Option Rat := none
  StopSequences : List String := []
  Metadata : Option (List (String × GoVal)) := none
  Options : OptMap := []

/-- `ClaudeMessageRequest.ToUnified`. -/
def ClaudeMessageRequest.ToUnified (r : ClaudeMessageRequest) : UnifiedChatRequest :=
  { Model := r.Model
    Messages :=
      (r.System.filterMap (fun s =>
        if goTrimSpace s ≠ "" then some { Role := "system", Content := s, Name := "" }
        else none))
      ++ r.Messages.map (fun m => { Role := m.Role, Content := m.Content, Name := m.Name })
    Stream := r.Stream
    Options := r.Options }

/-- `translator.ChatCompletionRequest` after `UnmarshalJSON` (the fields
the dispatch path consumes). -/
structure ChatCompletionRequest where
  Model : String
  Messages : List Message
  Stream : Bool := false
  Options : OptMap := []

/-- `ChatCompletionRequest.ToUnified`. -/
def ChatCompletionRequest.ToUnified (r : ChatCompletionRequest) : UnifiedChatRequest :=
  { Model := r.Model
    Messages := r.Messages.map (fun m => { Role := m.Role, Content := m.Content, Name := m.Name })
    Stream := r.Stream
    Options := r.Options }

/-- `translator.OpenAIUsage`. -/
structure OpenAIUsage where
  PromptTokens : Int
  CompletionTokens : Int
  TotalTokens : Int
deriving DecidableEq

/-- `translator.ChatChoice`. -/
structure ChatChoice where
  Index : Int
  Message : Message
  FinishReason : String
deriving DecidableEq

/-- `translator.ChatCompletionResponse` (`Usage = none` means the pointer
is nil and `omitempty` drops the field from the JSON). -/
structure ChatCompletionResponse where
  ID : String
  Object : String
  Created : Int
  Model : String
  Choices : List ChatChoice
  Usage : Option OpenAIUsage
deriving DecidableEq

/-- `translator.FromUnifiedChat`. -/
def FromUnifiedChat (modelID : String) (createdUnix : Int)
    (resp : UnifiedChatResponse) : ChatCompletionResponse :=
  let choice : ChatChoice :=
    { Index := 0
      Message := { Role := resp.Message.Role, Content := resp.Message.Content
                   Name := resp.Message.Name }
      FinishReason := resp.FinishReason }
  let usage : Option OpenAIUsage :=
    if resp.Usage.TotalTokens ≠ 0 ∨ resp.Usage.PromptTokens ≠ 0 ∨
        resp.Usage.CompletionTokens ≠ 0 then
      some { PromptTokens := resp.Usage.PromptTokens
             CompletionTokens := resp.Usage.CompletionTokens
             TotalTokens := resp.Usage.TotalTokens }
    else none
  { ID := resp.ID
    Object := "chat.completion"
    Created := createdUnix
    Model := modelID
    Choices := [choice]
    Usage := usage }

/-- `translator.CompletionChoice`. -/
structure CompletionChoice where
  Text : String
  Index : Int
  FinishReason : String
deriving DecidableEq

/-- `translator.CompletionResponse`. -/
structure CompletionResponse where
  ID : String
  Object : String
  Created : Int
  Model : String
  Choices : List CompletionChoice
  Usage : Option OpenAIUsage
deriving DecidableEq

/-- `translator.FromUnifiedCompletion`. -/
def FromUnifiedCompletion (modelID : String) (createdUnix : Int)
    (resp : UnifiedCompletionResponse) : CompletionResponse :=
  let usage : Option OpenAIUsage :=
    if resp.Usage.TotalTokens ≠ 0 ∨ resp.Usage.PromptTokens ≠ 0 ∨
        resp.Usage.CompletionTokens ≠ 0 then
      some { PromptTokens := resp.Usage.PromptTokens
             CompletionTokens := resp.Usage.CompletionTokens
             TotalTokens := resp.Usage.TotalTokens }
    else none
  { ID := resp.ID
    Object := "text_completion"
    Created := createdUnix
    Model := modelID
    Choices := [{ Text := resp.Text, Index := 0, FinishReason := resp.FinishReason }]
    Usage := usage }

/-- `translator.ClaudeTextBlock`. -/
structure ClaudeTextBlock where
  type : String
  text : String
deriving DecidableEq

/-- `translator.ClaudeUsage`. -/
structure ClaudeUsage where
  InputTokens : Int
  OutputTokens : Int
  TotalTokens : Int
deriving DecidableEq

/-- `translator.ClaudeMessageResponse`. -/
structure ClaudeMessageResponse where
  ID : String
  type : String
  Role : String
  Model : String
  Content : List ClaudeTextBlock
  StopReason : String
  Usage : ClaudeUsage
deriving DecidableEq

/-- `translator.FromUnifiedClaude`. -/
def FromUnifiedClaude (modelID : String) (resp : UnifiedChatResponse) :
    ClaudeMessageResponse :=
  let role := if resp.Message.Role = "" then "assistant" else resp.Message.Role
  let contentText :=
    if goTrimSpace resp.Message.Content = "" then "" else resp.Message.Content
  { ID := resp.ID
    type := "message"
    Role := role
    Model := modelID
    Content := [{ type := "text", text := contentText }]
    StopReason := resp.FinishReason
    Usage := { InputTokens := resp.Usage.PromptTokens
               OutputTokens := resp.Usage.CompletionTokens
               TotalTokens := resp.Usage.TotalTokens } }

/-- `server.maxBodyBytes`: 1 MiB. -/
def maxBodyBytes : Nat := 2 ^ 20

/-- `server.requestError`. -/
structure RequestError where
  Status : Int
  Message : String
  type : String
  Code : String := ""
deriving DecidableEq

/-- `server.toHTTPError`. Router errors are never `requestError` values,
so the `errors.As` branch is vacuous on this path; the two `errors.Is`
checks read the sentinel flags carried by `GoErr`. -/
def toHTTPError (err : GoErr) : RequestError :=
  if err.isUnknownModel then
    { Status := 400, Message := err.msg, type := "invalid_request_error" }
  else if err.isUnsupportedOperation then
    { Status := 400, Message := err.msg, type := "invalid_request_error" }
  else
    { Status := 502, Message := "upstream provider error", type := "upstream_error" }

/-- What the JSON decoder would see in an ingress body, once the
`http.MaxBytesReader` cap has been accounted for separately. -/
inductive BodyJson (α : Type) : Type
| value (v : α) (trailing : Bool)
| empty
| malformed

/-- An ingress request body: its total size in bytes and its parse shape. -/
structure IngressBody (α : Type) : Type where
  size : Nat
  json : BodyJson α

/-- `server.decodeRequestBody`. A body larger than `maxBodyBytes` makes a
read through the `http.MaxBytesReader` fail with the Go message
`http: request body too large`; that error is not `io.EOF`, so the code
maps it to a 400 invalid-JSON request error (when the limit is only hit
while checking for trailing data the message is the trailing-garbage one
instead, with the same 400 status). -/
def decodeRequestBody {α : Type} (body : IngressBody α) : Except RequestError α :=
  if body.size > maxBodyBytes then
    .error { Status := 400
             Message := "invalid JSON payload: http: request body too large"
             type := "invalid_request_error" }
  else
    match body.json with
    | .empty =>
      .error { Status := 400, Message := "request body is required"
               type := "invalid_request_error" }
    | .malformed =>
      .error { Status := 400, Message := "invalid JSON payload"
               type := "invalid_request_error" }
    | .value v trailing =>
      if trailing then
        .error { Status := 400
                 Message := "request body must contain a single JSON object"
                 type := "invalid_request_error" }
      else .ok v

/-- Concatenation of a list of strings in order. -/
def concatAll : List String → String
| [] => ""
| s :: rest => s ++ concatAll rest

/-- A JSON value, as `json.Marshal` would produce it (object keys of a Go
map are emitted in sorted order, which the frame builders respect). -/
inductive Json : Type
| null
| jstr (s : String)
| jint (n : Int)
| jarr (l : List Json)
| jobj (l : List (String × Json))

/-- Escape one character for a JSON string literal. -/
def escChar (c : Char) : String :=
  if c = '\\' then "\\\\"
  else if c = '"' then "\\\""
  else if c = '\n' then "\\n"
  else if c = '\r' then "\\r"
  else if c = '\t' then "\\t"
  else String.singleton c

/-- Escape a string for a JSON string literal. -/
def jsonEscape (s : String) : String := String.join (s.toList.map escChar)

mutual

/-- Serialize a JSON value. -/
def Json.render : Json → String
| .null => "null"
| .jstr s => "\"" ++ jsonEscape s ++ "\""
| .jint n => toString n
| .jarr l => "[" ++ renderArr l ++ "]"
| .jobj l => "\x7b" ++ renderObj l ++ "\x7d"

/-- Serialize the elements of a JSON array. -/
def renderArr : List Json → String
| [] => ""
| [x] => Json.render x
| x :: xs => Json.render x ++ "," ++ renderArr xs

/-- Serialize the members of a JSON object. -/
def renderObj : List (String × Json) → String
| [] => ""
| [(k, v)] => "\"" ++ jsonEscape k ++ "\":" ++ Json.render v
| (k, v) :: xs => "\"" ++ jsonEscape k ++ "\":" ++ Json.render v ++ "," ++ renderObj xs

end

/-- Field access on a JSON object. -/
def jsonGet (j : Json) (k : String) : Option Json :=
  match j with
  | .jobj l => mapGet l k
  | _ => none

/-- `server.writeSSEEvent`: one frame, `event:` line then `data:` line. -/
def writeSSEEvent (event : String) (payload : Json) : String :=
  "event: " ++ event ++ "\n" ++ "data: " ++ payload.render ++ "\n\n"

/-- Concatenate SSE frames in order, as the write-and-flush loop does. -/
def renderSSE (frames : List (String × Json)) : String :=
  concatAll (frames.map (fun f => writeSSEEvent f.1 f.2))

/-- The six event payloads built by `writeClaudeStream`, in emission order,
with object keys in `json.Marshal`'s sorted-key order. -/
def claudeStreamFrames (modelID : String) (resp : UnifiedChatResponse) :
    List (String × Json) :=
  let usage : Json := .jobj
    [("input_tokens", .jint resp.Usage.PromptTokens),
     ("output_tokens", .jint resp.Usage.CompletionTokens),
     ("total_tokens", .jint resp.Usage.TotalTokens)]
  [("message_start", .jobj
      [("message", .jobj
          [("content", .jarr []),
           ("id", .jstr resp.ID),
           ("model", .jstr modelID),
           ("role", .jstr resp.Message.Role),
           ("stop_reason", .null),
           ("stop_sequence", .null),
           ("type", .jstr "message"),
           ("usage", usage)]),
       ("type", .jstr "message_start")]),
   ("content_block_start", .jobj
      [("content_block", .jobj [("text", .jstr ""), ("type", .jstr "text")]),
       ("index", .jint 0),
       ("type", .jstr "content_block_start")]),
   ("content_block_delta", .jobj
      [("delta", .jobj
          [("text", .jstr resp.Message.Content), ("type", .jstr "text_delta")]),
       ("index", .jint 0),
       ("type", .jstr "content_block_delta")]),
   ("content_block_stop", .jobj
      [("index", .jint 0), ("type", .jstr "content_block_stop")]),
   ("message_delta", .jobj
      [("delta", .jobj
          [("stop_reason", .jstr resp.FinishReason), ("stop_sequence", .null)]),
       ("type", .jstr "message_delta"),
       ("usage", usage)]),
   ("message_stop", .jobj [("type", .jstr "message_stop")])]

/-- `server.writeClaudeStream`: fails before writing any byte when the
writer cannot flush, otherwise emits the whole six-frame transcript. -/
def writeClaudeStream (flushCapable : Bool) (modelID : String)
    (resp : UnifiedChatResponse) : Except RequestError String :=
  if flushCapable = false then
    .error { Status := 500
             Message := "server does not support streaming responses"
             type := "server_error" }
  else
    .ok (renderSSE (claudeStreamFrames modelID resp))

/-- What `handleClaudeMessages` writes on success. -/
inductive ClaudeHandlerOutput : Type
| json (resp : ClaudeMessageResponse)
| sse (transcript : String)

/-- `Server.handleClaudeMessages` after body decoding, with the dispatcher
(`Router.Chat` on the live router) abstracted as `dispatch`. -/
def handleClaudeMessages
    (dispatch : UnifiedChatRequest → Except GoErr (UnifiedChatResponse × ModelDesc))
    (flushCapable : Bool) (req : ClaudeMessageRequest) :
    Except RequestError ClaudeHandlerOutput :=
  let requestedStream := req.Stream
  let unifiedReq : UnifiedChatRequest := { req.ToUnified with Stream := false }
  match dispatch unifiedReq with
  | .error e => .error (toHTTPError e)
  | .ok (resp, modelInfo) =>
    if requestedStream then
      match writeClaudeStream flushCapable modelInfo.ID resp with
      | .error e => .error e
      | .ok s => .ok (.sse s)
    else
      .ok (.json (FromUnifiedClaude modelInfo.ID resp))

/-- `Server.handleClaudeMessages` from the raw body onward. -/
def handleClaudeMessagesHTTP
    (dispatch : UnifiedChatRequest → Except GoErr (UnifiedChatResponse × ModelDesc))
    (flushCapable : Bool) (body : IngressBody ClaudeMessageRequest) :
    Except RequestError ClaudeHandlerOutput :=
  match decodeRequestBody body with
  | .error e => .error e
  | .ok req => handleClaudeMessages dispatch flushCapable req

/-- `Server.handleChatCompletions` after body decoding (`now` stands for
`time.Now().Unix()`). -/
def handleChatCompletions
    (dispatch : UnifiedChatRequest → Except GoErr (UnifiedChatResponse × ModelDesc))
    (now : Int) (req : ChatCompletionRequest) :
    Except RequestError ChatCompletionResponse :=
  match dispatch req.ToUnified with
  | .error e => .error (toHTTPError e)
  | .ok (resp, modelInfo) => .ok (FromUnifiedChat modelInfo.ID now resp)

/-- `Server.handleChatCompletions` from the raw body onward. -/
def handleChatCompletionsHTTP
    (dispatch : UnifiedChatRequest → Except GoErr (UnifiedChatResponse × ModelDesc))
    (now : Int) (body : IngressBody ChatCompletionRequest) :
    Except RequestError ChatCompletionResponse :=
  match decodeRequestBody body with
  | .error e => .error e
  | .ok req => handleChatCompletions dispatch now req

/-- Whether the first character list starts the second. -/
def listLeads : List Char → List Char → Bool
| [], _ => true
| _ :: _, [] => false
| a :: as, b :: bs => a == b && listLeads as bs

/-- Whether the first character list occurs inside the second. -/
def listWithin (p : List Char) : List Char → Bool
| [] => listLeads p []
| c :: rest => listLeads p (c :: rest) || listWithin p rest

/-- Substring containment on strings. -/
def strWithin (p s : String) : Bool := listWithin p.toList s.toList

lemma cloneOptions_eq (o : OptMap) : cloneOptions o = o := by
  cases o with
  | nil => rfl
  | cons x xs => simp [cloneOptions]

lemma listLeads_append (p q r : List Char) (h : listLeads p q = true) :
    listLeads p (q ++ r) = true := by
  induction p generalizing q with
  | nil => rfl
  | cons a as ih =>
    cases q with
    | nil => simp [listLeads] at h
    | cons b bs =>
      simp only [listLeads, Bool.and_eq_true] at h ⊢
      exact ⟨h.1, ih bs h.2⟩

lemma listWithin_of_listLeads (p l : List Char) (h : listLeads p l = true) :
    listWithin p l = true := by
  cases l with
  | nil => exact h
  | cons c rest => simp [listWithin, h]

lemma concatText_all_text (l : List CBlock) (h : ∀ b ∈ l, b.type = "text") :
    concatText l = .ok (concatAll (l.map (fun b => b.text))) := by
  induction l with
  | nil => rfl
  | cons b tl ih =>
    have hb : b.type = "text" := h b (List.mem_cons_self b tl)
    have htl : ∀ x ∈ tl, x.type = "text" := fun x hx => h x (List.mem_cons_of_mem b hx)
    simp [concatText, hb, ih htl, concatAll]

lemma concatText_nontext (l : List CBlock) (h : ∃ b ∈ l, b.type ≠ "text") :
    ∃ e, concatText l = .error e := by
  induction l with
  | nil => simp at h
  | cons b tl ih =>
    by_cases hb : b.type = "text"
    · have htl : ∃ x ∈ tl, x.type ≠ "text" := by
        rcases h with ⟨x, hx, hxt⟩
        rcases List.mem_cons.mp hx with rfl | hmem
        · exact absurd hb hxt
        · exact ⟨x, hmem, hxt⟩
      rcases ih htl with ⟨e, he⟩
      refine ⟨e, ?_⟩
      simp [concatText, hb, he]
    · exact ⟨"claude returned unsupported content block type " ++ b.type,
        by simp [concatText, hb]⟩

/-- Provider fixture: the provider named `A` offering model `m1`. -/
def provA : Provider :=
  { name := "A", listModels := .ok [⟨"m1", "A", "openai"⟩] }

/-- Provider fixture: the provider named `B` offering `m2` and then the
already-taken id `m1`. -/
def provB : Provider :=
  { name := "B", listModels := .ok [⟨"m2", "B", "openai"⟩, ⟨"m1", "B", "openai"⟩] }

/-- C1: the claim says a failed `RegisterProvider` leaves both maps
unchanged. Evaluating the code at a concrete failing input refutes this:
registering provider `B` with models `[m2, m1]` into a registry that
already holds `m1` returns the duplicate-model error, yet afterwards `m2`
is present in the model map and `B` is present in the provider-name map —
the partial registration is never rolled back. -/
theorem registryRegisterNotAtomicOnDuplicateModel :
    ((RegisterProvider (RegisterProvider NewRegistry (some provA) []).1
        (some provB) []).2).isSome = true ∧
    (mapGet ((RegisterProvider (RegisterProvider NewRegistry (some provA) []).1
        (some provB) []).1).models "m2").isSome = true ∧
    (mapGet ((RegisterProvider NewRegistry (some provA) []).1).models "m2").isSome
      = false ∧
    (mapGet ((RegisterProvider (RegisterProvider NewRegistry (some provA) []).1
        (some provB) []).1).byName "B").isSome = true ∧
    (mapGet ((RegisterProvider NewRegistry (some provA) []).1).byName "B").isSome
      = false :=
  ⟨rfl, rfl, rfl, rfl, rfl⟩

/-- C10: in the OpenAI egress serializers the usage object is omitted
(`none`, so `omitempty` drops the field) exactly when prompt, completion
and total token counts are all zero, and otherwise carries the three
counts unchanged. -/
theorem openAIUsageOmittedExactlyWhenAllZero (modelID : String) (now : Int)
    (chatResp : UnifiedChatResponse) (complResp : UnifiedCompletionResponse) :
    (FromUnifiedChat modelID now chatResp).Usage =
      (if chatResp.Usage.PromptTokens = 0 ∧ chatResp.Usage.CompletionTokens = 0 ∧
          chatResp.Usage.TotalTokens = 0 then none
       else some { PromptTokens := chatResp.Usage.PromptTokens
                   CompletionTokens := chatResp.Usage.CompletionTokens
                   TotalTokens := chatResp.Usage.TotalTokens }) ∧
    (FromUnifiedCompletion modelID now complResp).Usage =
      (if complResp.Usage.PromptTokens = 0 ∧ complResp.Usage.CompletionTokens = 0 ∧
          complResp.Usage.TotalTokens = 0 then none
       else some { PromptTokens := complResp.Usage.PromptTokens
                   CompletionTokens := complResp.Usage.CompletionTokens
                   TotalTokens := complResp.Usage.TotalTokens }) := by
  constructor
  · simp only [FromUnifiedChat]
    split_ifs with h1 h2 <;> first | rfl | tauto
  · simp only [FromUnifiedCompletion]
    split_ifs with h1 h2 <;> first | rfl | tauto

/-- C7 counterexample: with `s = " x "` the single-string form keeps the
string verbatim while the one-element-array form trims it, so the two
canonical stop values differ. -/
theorem stopSingleStringVsArrayDisagreeOnWhitespace :
    parseStop (.str " x ") = .ok [" x "] ∧
    parseStop (.arr [" x "]) = .ok ["x"] ∧
    ([" x "] : List String) ≠ ["x"] := by
  refine ⟨?_, ?_, by decide⟩ <;> rfl

/-- C7 (amended): the two forms fail together (exactly when `s` trims to
empty); when `s` carries no surrounding whitespace they yield the identical
one-element list; in general the single-string form yields `[s]` verbatim
while the array form yields `[trim s]`. -/
theorem stopSingleStringVsArrayAgreeUpToTrim (s : String) :
    (goTrimSpace s = "" →
      parseStop (.str s) = .error "unsupported stop value" ∧
      parseStop (.arr [s]) = .error "unsupported stop value") ∧
    (goTrimSpace s ≠ "" →
      parseStop (.str s) = .ok [s] ∧
      parseStop (.arr [s]) = .ok [goTrimSpace s]) ∧
    (goTrimSpace s = s → parseStop (.str s) = parseStop (.arr [s])) := by
  by_cases h : goTrimSpace s = ""
  · refine ⟨fun _ => ⟨?_, ?_⟩, fun hne => absurd h hne, fun hts => ?_⟩
    · simp [parseStop, h]
    · simp [parseStop, trimStops, h]
    · simp [parseStop, trimStops, h]
  · refine ⟨fun hc => absurd hc h, fun _ => ⟨?_, ?_⟩, fun hts => ?_⟩
    · simp [parseStop, h]
    · simp [parseStop, trimStops, h]
    · simp [parseStop, trimStops, h, hts]

/-- C7 witness: at `s = "x"` the trimmed form is `s` itself and the two
shapes produce the same canonical value. -/
theorem stopSingleStringVsArrayAgreeUpToTrim_witness :
    goTrimSpace "x" = "x" ∧ parseStop (.str "x") = parseStop (.arr ["x"]) :=
  ⟨rfl, (stopSingleStringVsArrayAgreeUpToTrim "x").2.2 rfl⟩

/-- C8: the four accepted shapes of the Claude `system` field — string,
one-element string list, single text block, one-element block list —
normalise to the same system value (empty when `t` trims to blank,
otherwise the one-element list of the trimmed text), so the adapter joins
the same parts into the same system string for all four. -/
theorem claudeSystemFourShapesNormaliseEqually (t : String) :
    parseClaudeSystem (.str t) = parseClaudeSystem (.strList [t]) ∧
    parseClaudeSystem (.str t) = parseClaudeSystem (.block "text" t) ∧
    parseClaudeSystem (.str t) = parseClaudeSystem (.blockList [⟨"text", t⟩]) ∧
    parseClaudeSystem (.str t) =
      .ok (if goTrimSpace t = "" then [] else [goTrimSpace t]) := by
  have hesb : extractSystemBlock ⟨"text", t⟩ = .ok (goTrimSpace t) := by
    simp [extractSystemBlock]
  by_cases h : goTrimSpace t = "" <;>
    refine ⟨?_, ?_, ?_, ?_⟩ <;>
      simp [parseClaudeSystem, collectSystemBlocks, hesb, h]

/-- Response fixture: a Claude upstream response with no content blocks. -/
def emptyClaudeResp : MessageResponse :=
  { ID := "id0", Role := "assistant", Content := [], Usage := ⟨3, 4⟩
    StopReason := "end_turn" }

/-- C5 counterexample: for the upstream response with an empty content
list — where the claim, quantified over every response, would demand a
successful translation with the empty concatenation — the translation
fails instead. -/
theorem claudeEmptyContentTranslationFails :
    toUnified emptyClaudeResp = .error "claude response missing content blocks" :=
  rfl

/-- C5 (amended): for every Claude upstream response with at least one
content block, the translation concatenates the text of every text block
in order, fails on any non-text block, defaults the role to `assistant`
when absent, and reports total tokens as input plus output. -/
theorem claudeResponseTranslationConcatenatesTextBlocks
    (r : MessageResponse) (h : r.Content ≠ []) :
    ((∀ b ∈ r.Content, b.type = "text") →
      toUnified r = .ok
        { ID := r.ID
          Message := { Role := if r.Role = "" then "assistant" else r.Role
                       Content := concatAll (r.Content.map (fun b => b.text))
                       Name := "" }
          FinishReason := r.StopReason
          Usage := { PromptTokens := r.Usage.InputTokens
                     CompletionTokens := r.Usage.OutputTokens
                     TotalTokens := r.Usage.InputTokens + r.Usage.OutputTokens } }) ∧
    ((∃ b ∈ r.Content, b.type ≠ "text") → ∃ e, toUnified r = .error e) := by
  constructor
  · intro hall
    have hct := concatText_all_text r.Content hall
    unfold toUnified
    cases hcl : r.Content with
    | nil => exact absurd hcl h
    | cons hd tl =>
      rw [hcl] at hct
      simp only [hct, hcl]
  · intro hnon
    rcases concatText_nontext r.Content hnon with ⟨e, he⟩
    unfold toUnified
    cases hcl : r.Content with
    | nil => exact absurd hcl h
    | cons hd tl =>
      rw [hcl] at he
      exact ⟨e, by simp only [he]⟩

/-- Response fixture: two text blocks, role absent, usage 2 + 5. -/
def claudeRespW : MessageResponse :=
  { ID := "msg1", Role := "", Content := [⟨"text", "Hello "⟩, ⟨"text", "world"⟩]
    Usage := ⟨2, 5⟩, StopReason := "end_turn" }

/-- C5 witness: evaluating the amended theorem on a concrete two-block
response with an absent role. -/
theorem claudeResponseTranslationConcatenatesTextBlocks_witness :
    claudeRespW.Content ≠ [] ∧
    toUnified claudeRespW = .ok
      { ID := "msg1"
        Message := { Role := "assistant", Content := "Hello world", Name := "" }
        FinishReason := "end_turn"
        Usage := { PromptTokens := 2, CompletionTokens := 5, TotalTokens := 7 } } := by
  refine ⟨by decide, ?_⟩
  have hr := (claudeResponseTranslationConcatenatesTextBlocks claudeRespW
    (by decide)).1 (by decide)
  simpa [claudeRespW, concatAll] using hr

/-- Body fixture: a syntactically valid Claude-messages request whose body
is one byte over the 1 MiB cap. -/
def overLimitBody : IngressBody ClaudeMessageRequest :=
  { size := maxBodyBytes + 1
    json := .value { Model := "m2", Messages := [⟨"user", "q", ""⟩] } false }

/-- C6: the claim says a body over 1 MiB gets status 413. The code routes
the `http: request body too large` read failure through the generic
invalid-JSON branch, producing status 400 — never 413 — though indeed no
dispatch occurs (the handler result does not depend on the dispatcher or
the writer). -/
theorem oversizedBodyYields400InsteadOf413 :
    decodeRequestBody overLimitBody =
      .error { Status := 400
               Message := "invalid JSON payload: http: request body too large"
               type := "invalid_request_error" } ∧
    (∀ d₁ d₂ fc₁ fc₂,
      handleClaudeMessagesHTTP d₁ fc₁ overLimitBody =
        handleClaudeMessagesHTTP d₂ fc₂ overLimitBody) ∧
    ((400 : Int) ≠ 413) :=
  ⟨rfl, fun _ _ _ _ => rfl, by decide⟩

lemma strWithin_unknown_model (idStr : String) :
    strWithin "unknown model" ("unknown model: " ++ idStr) = true := by
  have h1 : listLeads ("unknown model".toList) ("unknown model: ".toList) = true := by
    decide
  have h2 := listLeads_append _ _ (idStr.toList) h1
  have h3 : ("unknown model: " ++ idStr).toList =
      "unknown model: ".toList ++ idStr.toList := by
    simp [String.toList, String.data_append]
  unfold strWithin
  rw [h3]
  exact listWithin_of_listLeads _ _ h2

/-- Request fixture: an OpenAI chat request naming an unregistered model. -/
def ghostChatReq : ChatCompletionRequest :=
  { Model := "ghost", Messages := [⟨"user", "hi", ""⟩] }

/-- Claude-request fixture naming an unregistered model. -/
def ghostClaudeReq : ClaudeMessageRequest :=
  { Model := "ghost", Messages := [⟨"user", "hi", ""⟩] }

/-- A provider behaviour that always fails; used to instantiate handlers
where the upstream must not matter. -/
def failingChatImpl : Provider → UnifiedChatRequest → Except GoErr UnifiedChatResponse :=
  fun _ _ => .error { msg := "boom" }

/-- C9 counterexample: on the empty registry the unknown-model response
for model `ghost` has status 400 but its message is
`unknown model: ghost`, which does not contain the claimed substring
`unknown_model` (the code spells it with a space, not an underscore). -/
theorem unknownModelMessageLacksUnderscoreSubstring :
    handleChatCompletions (RouterChat NewRegistry failingChatImpl) 0 ghostChatReq =
      .error { Status := 400, Message := "unknown model: ghost"
               type := "invalid_request_error" } ∧
    strWithin "unknown_model" "unknown model: ghost" = false :=
  ⟨rfl, by decide⟩

/-- C9 (amended): a request naming a model id that is neither registered
nor an alias yields status 400 with a message containing the substring
`unknown model`, independently of the provider behaviour (so no upstream
call can influence it), on both the OpenAI-chat and Claude endpoints. -/
theorem unknownModelYields400WithUnknownModelMessage
    (reg : Registry) (now : Int) (req : ChatCompletionRequest)
    (creq : ClaudeMessageRequest) (fc : Bool)
    (h1 : mapGet reg.models req.Model = none)
    (h2 : mapGet reg.models creq.Model = none) :
    (∀ chatImpl, handleChatCompletions (RouterChat reg chatImpl) now req =
      .error { Status := 400, Message := "unknown model: " ++ req.Model
               type := "invalid_request_error" }) ∧
    strWithin "unknown model" ("unknown model: " ++ req.Model) = true ∧
    (∀ chatImpl, handleClaudeMessages (RouterChat reg chatImpl) fc creq =
      .error { Status := 400, Message := "unknown model: " ++ creq.Model
               type := "invalid_request_error" }) ∧
    strWithin "unknown model" ("unknown model: " ++ creq.Model) = true := by
  refine ⟨fun chatImpl => ?_, strWithin_unknown_model _, fun chatImpl => ?_,
    strWithin_unknown_model _⟩
  · simp [handleChatCompletions, RouterChat, LookupModel,
      ChatCompletionRequest.ToUnified, h1, toHTTPError]
  · simp [handleClaudeMessages, RouterChat, LookupModel,
      ClaudeMessageRequest.ToUnified, h2, toHTTPError]

/-- C9 witness: the amended theorem evaluated on the empty registry and
the `ghost` request. -/
theorem unknownModelYields400WithUnknownModelMessage_witness :
    mapGet NewRegistry.models "ghost" = none ∧
    handleChatCompletions (RouterChat NewRegistry failingChatImpl) 7 ghostChatReq =
      .error { Status := 400, Message := "unknown model: " ++ "ghost"
               type := "invalid_request_error" } :=
  ⟨rfl, (unknownModelYields400WithUnknownModelMessage NewRegistry 7 ghostChatReq
    ghostClaudeReq true rfl rfl).1 failingChatImpl⟩

/-- C2: when the model id (canonical or alias) resolves, the dispatcher
invokes the adapter with the model rewritten to the descriptor's canonical
id and an options bag that preserves every entry of the caller's bag (the
clone is a fresh map with identical entries, so adapter-side mutation
cannot reach the caller's map), on both the chat and completion paths. -/
theorem dispatcherCanonicalisesModelAndClonesOptions
    (reg : Registry) (req : UnifiedChatRequest) (creq : UnifiedCompletionRequest)
    (m mc : ModelDesc) (p pc : Provider)
    (h1 : LookupModel reg req.Model = .ok (m, p))
    (h2 : LookupModel reg creq.Model = .ok (mc, pc)) :
    (∃ s : UnifiedChatRequest,
      s.Model = m.ID ∧ s.Messages = req.Messages ∧ s.Stream = req.Stream ∧
      (∀ k, optGet s.Options k = optGet req.Options k) ∧
      (∀ chatImpl, RouterChat reg chatImpl req =
        match chatImpl p s with
        | .error e =>
          .error { e with msg := "provider " ++ p.name ++ " chat request: " ++ e.msg }
        | .ok resp => .ok (resp, m))) ∧
    (∃ s : UnifiedCompletionRequest,
      s.Model = mc.ID ∧ s.Prompt = creq.Prompt ∧ s.Stream = creq.Stream ∧
      s.MaxTokens = creq.MaxTokens ∧ s.Temperature = creq.Temperature ∧
      (∀ k, optGet s.Options k = optGet creq.Options k) ∧
      (∀ complImpl, RouterCompletion reg complImpl creq =
        match complImpl pc s with
        | .error e =>
          .error { e with msg := "provider " ++ pc.name ++ " completion request: " ++ e.msg }
        | .ok resp => .ok (resp, mc))) := by
  constructor
  · refine ⟨{ req with Model := m.ID, Options := cloneOptions req.Options },
      rfl, rfl, rfl, fun k => by rw [cloneOptions_eq], fun chatImpl => ?_⟩
    simp only [RouterChat, h1]
  · refine ⟨{ creq with Model := mc.ID, Options := cloneOptions creq.Options },
      rfl, rfl, rfl, rfl, rfl, fun k => by rw [cloneOptions_eq], fun complImpl => ?_⟩
    simp only [RouterCompletion, h2]

/-- Registry fixture: one provider `openai` with canonical model `m1` and
alias `alias-x` bound to the same entry. -/
def provW : Provider :=
  { name := "openai", listModels := .ok [⟨"m1", "openai", "openai"⟩] }

/-- Model fixture for `provW`. -/
def mW : ModelDesc := ⟨"m1", "openai", "openai"⟩

/-- Registry fixture holding `m1` and alias `alias-x`. -/
def regW : Registry :=
  { models := [("m1", ⟨mW, provW⟩), ("alias-x", ⟨mW, provW⟩)]
    byName := [("openai", provW)] }

/-- Chat-request fixture addressed to the alias. -/
def aliasReqW : UnifiedChatRequest :=
  { Model := "alias-x", Messages := [⟨"user", "hi", ""⟩], Stream := false
    Options := [("max_tokens", .vInt 5)] }

/-- Completion-request fixture addressed to the alias. -/
def aliasCReqW : UnifiedCompletionRequest :=
  { Model := "alias-x", Prompt := "hi", Stream := false, MaxTokens := 5
    Temperature := 0, Options := [("max_tokens", .vInt 5)] }

/-- C2 witness: on the fixture registry, looking up the alias resolves and
the sanitised request observed by the adapter carries the canonical id and
the same option entries. -/
theorem dispatcherCanonicalisesModelAndClonesOptions_witness :
    LookupModel regW aliasReqW.Model = .ok (mW, provW) ∧
    LookupModel regW aliasCReqW.Model = .ok (mW, provW) ∧
    (∃ s : UnifiedChatRequest,
      s.Model = mW.ID ∧ s.Messages = aliasReqW.Messages ∧
      s.Stream = aliasReqW.Stream ∧
      (∀ k, optGet s.Options k = optGet aliasReqW.Options k) ∧
      (∀ chatImpl, RouterChat regW chatImpl aliasReqW =
        match chatImpl provW s with
        | .error e =>
          .error { e with msg := "provider " ++ provW.name ++ " chat request: " ++ e.msg }
        | .ok resp => .ok (resp, mW))) :=
  ⟨rfl, rfl, (dispatcherCanonicalisesModelAndClonesOptions regW aliasReqW aliasCReqW
    mW mW provW provW rfl rfl).1⟩

/-- C3: whenever shaping the canonical messages succeeds but leaves no
non-system message, or leaves a first non-system message whose role is not
`user`, the payload build fails, and the Claude adapter returns that error
without the result depending on the upstream in any way (the error is one
fixed value for every upstream function). -/
theorem claudeAdapterRejectsConversationNotStartingWithUser
    (req : UnifiedChatRequest) (msgs : List CMessage) (sys : List String)
    (hshape : shapeMessages req.Messages = .ok (msgs, sys))
    (hbad : msgs.head?.map CMessage.Role ≠ some "user") :
    (∃ e, buildMessagePayload req = .error e) ∧
    (∃ e, ∀ upstream, ClaudeChat upstream req = .error e) := by
  have hb : ∃ e, buildMessagePayload req = .error e := by
    cases msgs with
    | nil =>
      exact ⟨"claude request requires at least one user message",
        by simp [buildMessagePayload, hshape]⟩
    | cons hd tl =>
      have hrole : hd.Role ≠ "user" := by
        intro hc
        exact hbad (by simp [hc])
      exact ⟨"claude conversation must start with a user message",
        by simp [buildMessagePayload, hshape, hrole]⟩
  rcases hb with ⟨e, he⟩
  refine ⟨⟨e, he⟩, ?_⟩
  by_cases hs : req.Stream
  · exact ⟨{ msg := "streaming is not yet supported", isUnsupportedOperation := true },
      fun upstream => by simp [ClaudeChat, hs]⟩
  · exact ⟨{ msg := e }, fun upstream => by simp [ClaudeChat, hs, he]⟩

/-- Request fixture: an assistant-first conversation on the Claude path. -/
def badStartReq : UnifiedChatRequest :=
  { Model := "m2", Messages := [{ Role := "assistant", Content := "x", Name := "" }]
    Stream := false, Options := [("max_tokens", .vInt 5)] }

/-- C3 witness: the assistant-first fixture shapes successfully, its first
shaped message is not a user message, and the payload build fails. -/
theorem claudeAdapterRejectsConversationNotStartingWithUser_witness :
    shapeMessages badStartReq.Messages =
      .ok ([{ Role := "assistant", Content := [⟨"text", "x"⟩] }], []) ∧
    (([{ Role := "assistant", Content := [⟨"text", "x"⟩] }] : List CMessage).head?.map
      CMessage.Role ≠ some "user") ∧
    (∃ e, buildMessagePayload badStartReq = .error e) := by
  have h1 : shapeMessages badStartReq.Messages =
      .ok ([{ Role := "assistant", Content := [⟨"text", "x"⟩] }], []) := rfl
  have h2 : (([{ Role := "assistant", Content := [⟨"text", "x"⟩] }] :
      List CMessage).head?.map CMessage.Role ≠ some "user") := by decide
  exact ⟨h1, h2,
    (claudeAdapterRejectsConversationNotStartingWithUser badStartReq _ _ h1 h2).1⟩

/-- C4: for a Claude-messages request with `stream:true` and a
flush-capable writer, the handler only ever consults the dispatcher at the
stream-false sanitised request (two dispatchers agreeing on stream-false
requests are indistinguishable), and on dispatch success it emits exactly
the six SSE events in order, with the third event's `delta.text` equal to
the complete assistant content. -/
theorem claudeStreamSynthesisSixEvents (req : ClaudeMessageRequest)
    (hstream : req.Stream = true) :
    (∀ (d₁ d₂ : UnifiedChatRequest → Except GoErr (UnifiedChatResponse × ModelDesc))
       (fc : Bool),
      (∀ r, r.Stream = false → d₁ r = d₂ r) →
      handleClaudeMessages d₁ fc req = handleClaudeMessages d₂ fc req) ∧
    (∀ (d : UnifiedChatRequest → Except GoErr (UnifiedChatResponse × ModelDesc))
       (resp : UnifiedChatResponse) (m : ModelDesc),
      d { req.ToUnified with Stream := false } = .ok (resp, m) →
      handleClaudeMessages d true req =
        .ok (.sse (renderSSE (claudeStreamFrames m.ID resp))) ∧
      (claudeStreamFrames m.ID resp).map Prod.fst =
        ["message_start", "content_block_start", "content_block_delta",
         "content_block_stop", "message_delta", "message_stop"] ∧
      (((claudeStreamFrames m.ID resp).get? 2).bind
        (fun f => (jsonGet f.2 "delta").bind (fun dj => jsonGet dj "text"))) =
        some (.jstr resp.Message.Content)) := by
  constructor
  · intro d₁ d₂ fc hagree
    have hsub : d₁ { req.ToUnified with Stream := false } =
        d₂ { req.ToUnified with Stream := false } := hagree _ rfl
    simp only [handleClaudeMessages, hsub]
  · intro d resp m hd
    refine ⟨?_, rfl, rfl⟩
    simp [handleClaudeMessages, hd, hstream, writeClaudeStream]

/-- Request fixture: a Claude-messages request with `stream:true`. -/
def streamReqW : ClaudeMessageRequest :=
  { Model := "m2", Messages := [⟨"user", "q", ""⟩], Stream := true }

/-- Response fixture used for the streaming witness. -/
def streamRespW : UnifiedChatResponse :=
  { Message := { Role := "assistant", Content := "Hello!", Name := "" }
    Usage := ⟨2, 5, 7⟩, FinishReason := "end_turn", ID := "msg1" }

/-- Descriptor fixture for the streaming witness. -/
def mW2 : ModelDesc := ⟨"m2", "claude", "claude"⟩

/-- A dispatcher behaviour that always succeeds with the fixtures. -/
def okDispatchW : UnifiedChatRequest → Except GoErr (UnifiedChatResponse × ModelDesc) :=
  fun _ => .ok (streamRespW, mW2)

/-- C4 witness: the streaming fixture produces the six-frame transcript. -/
theorem claudeStreamSynthesisSixEvents_witness :
    streamReqW.Stream = true ∧
    okDispatchW { streamReqW.ToUnified with Stream := false } =
      .ok (streamRespW, mW2) ∧
    handleClaudeMessages okDispatchW true streamReqW =
      .ok (.sse (renderSSE (claudeStreamFrames "m2" streamRespW))) :=
  ⟨rfl, rfl, ((claudeStreamSynthesisSixEvents streamReqW rfl).2 okDispatchW
    streamRespW mW2 rfl).1⟩

end GocodeRouter
